import Mathlib

/-
Verification of the request-lifecycle adapter in src/server.py.

The handler `generate` (an HTTP endpoint) is embedded shallowly:
the JSON request body is an association list of string keys to `JVal`
values, Python dict `pop` becomes `popKey` or `popKeyD`, the engine is
a fixed finite list of `IncrementalResult`s it would yield, and the
client-disconnect observations are a function from the loop iteration
index to `Bool`.  The handler returns an `Outcome`: either the Python
exception raised before the engine is invoked, or the engine call made
together with the trace of pull / disconnect-check / abort events and
the eventual result of the Python function (a JSON response, a
streamed body, a fall-through `return None`, or an unhandled
exception).
-/

set_option autoImplicit false

namespace Server

/-- Values of a decoded JSON document, as produced by request.json(). -/
inductive JVal where
  | null : JVal
  | bool : Bool → JVal
  | int : Int → JVal
  | str : String → JVal
  | arr : List JVal → JVal
  | obj : List (String × JVal) → JVal

/-- Python truthiness of a decoded JSON value, used by bare if-tests. -/
def truthy : JVal → Bool
  | JVal.null => false
  | JVal.bool b => b
  | JVal.int n => n != 0
  | JVal.str s => s.length != 0
  | JVal.arr xs => xs.length != 0
  | JVal.obj kvs => kvs.length != 0

/-- Python dict.pop with no default: the value bound to the key, and the
mapping with that entry removed; `none` models the KeyError. -/
def popKey (k : String) : List (String × JVal) → Option (JVal × List (String × JVal))
  | [] => none
  | (k2, v) :: rest =>
    if k2 = k then some (v, rest)
    else
      match popKey k rest with
      | none => none
      | some (v2, rest2) => some (v2, (k2, v) :: rest2)

/-- Python dict.pop with a default value: never fails. -/
def popKeyD (k : String) (dflt : JVal) (d : List (String × JVal)) :
    JVal × List (String × JVal) :=
  match popKey k d with
  | none => (dflt, d)
  | some r => r

/-- Plain association-list lookup, used only in specifications. -/
def lookupKey (k : String) : List (String × JVal) → Option JVal
  | [] => none
  | (k2, v) :: rest => if k2 = k then some v else lookupKey k rest

/-- Python exceptions the handler can raise. -/
inductive PyErr where
  | keyError : String → PyErr
  | typeError : String → PyErr
  | indexError : PyErr

/-- One generated candidate inside an engine result (vllm CompletionOutput). -/
structure CompletionOutput where
  text : String

/-- One incremental engine result (vllm RequestOutput): the prompt it echoes
and the cumulative outputs so far. -/
structure IncrementalResult where
  prompt : String
  outputs : List CompletionOutput

/-- The sampling configuration handed to the engine: the two explicit
keyword arguments of the SamplingParams call plus the splatted leftovers
of the parameters mapping. -/
structure SamplingParams where
  max_tokens : JVal
  use_beam_search : JVal
  extra : List (String × JVal)

/-- The arguments of the single app.engine.generate invocation. -/
structure EngineCall where
  prompt : JVal
  sampling : SamplingParams
  request_id : String

/-- The values extracted from the request body by the pop sequence of
lines 28-33 of server.py. -/
structure ParsedReq where
  prompt : JVal
  streamVal : JVal
  max_nt : JVal
  ret_ft : JVal
  sample : JVal
  extraParams : List (String × JVal)

/-- The pop sequence of server.py lines 28-33: inputs, parameters and
stream are popped from the body, then max_new_tokens, return_full_text
and do_sample from the parameters mapping; a missing required key is a
KeyError, a non-mapping parameters value fails at its first pop. -/
def parseBody (body : List (String × JVal)) : Except PyErr ParsedReq :=
  match popKey "inputs" body with
  | none => Except.error (PyErr.keyError "inputs")
  | some (prompt, d1) =>
    match popKey "parameters" d1 with
    | none => Except.error (PyErr.keyError "parameters")
    | some (pv, d2) =>
      let streamPair := popKeyD "stream" (JVal.bool false) d2
      match pv with
      | JVal.obj params =>
        match popKey "max_new_tokens" params with
        | none => Except.error (PyErr.keyError "max_new_tokens")
        | some (max_nt, p1) =>
          let retPair := popKeyD "return_full_text" (JVal.bool false) p1
          let samplePair := popKeyD "do_sample" (JVal.bool true) retPair.2
          Except.ok
            ⟨prompt, streamPair.1, max_nt, retPair.1, samplePair.1, samplePair.2⟩
      | _ => Except.error (PyErr.typeError "parameters has no attribute pop")

/-- The engine invocation of server.py lines 44-52: prompt, then
SamplingParams with max_tokens, use_beam_search bound to the popped
do_sample value, and the leftover parameters splatted, then the request
id. -/
def mkEngineCall (p : ParsedReq) (req_id : String) : EngineCall :=
  ⟨p.prompt, ⟨p.max_nt, p.sample, p.extraParams⟩, req_id⟩

/-- The echo rule applied to each output entry (lines 61 and 88):
prompt + output.text when return_full_text is truthy, output.text alone
otherwise. -/
def projectText (ret_ft : Bool) (prompt text : String) : String :=
  if ret_ft then prompt ++ text else text

/-- Lowercase hexadecimal digit, as produced by the json module. -/
def hexChar (n : Nat) : Char := Nat.digitChar (n % 16)

/-- Four-digit lowercase hexadecimal rendering of a code unit. -/
def hex4 (n : Nat) : String :=
  String.mk [hexChar (n / 4096), hexChar (n / 256), hexChar (n / 16), hexChar n]

/-- Escaping of one character by json.dumps with its default
ensure_ascii=True: the two-character named escapes, then u-escapes for
the remaining control characters and for everything outside printable
ASCII, with surrogate pairs beyond the basic multilingual plane. -/
def jsonEscapeChar (c : Char) : String :=
  if c = Char.ofNat 34 then "\\\""
  else if c = Char.ofNat 92 then "\\\\"
  else if c = Char.ofNat 8 then "\\b"
  else if c = Char.ofNat 12 then "\\f"
  else if c = Char.ofNat 10 then "\\n"
  else if c = Char.ofNat 13 then "\\r"
  else if c = Char.ofNat 9 then "\\t"
  else if c.toNat < 32 then "\\u" ++ hex4 c.toNat
  else if c.toNat < 127 then String.singleton c
  else if c.toNat < 65536 then "\\u" ++ hex4 c.toNat
  else
    "\\u" ++ hex4 (55296 + (c.toNat - 65536) / 1024) ++
      "\\u" ++ hex4 (56320 + (c.toNat - 65536) % 1024)

/-- Escape every character of a string in order. -/
def escapeList : List Char → String
  | [] => ""
  | c :: rest => jsonEscapeChar c ++ escapeList rest

/-- A JSON string literal as written by json.dumps. -/
def jsonQuote (s : String) : String :=
  "\"" ++ escapeList s.data ++ "\""

/-- The default json.dumps item separator between list elements. -/
def joinWithComma : List String → String
  | [] => ""
  | [s] => s
  | s :: s2 :: rest => s ++ ", " ++ joinWithComma (s2 :: rest)

/-- The serialization json.dumps applies to the streamed chunk object:
a single-key object mapping text to the list of projected strings. -/
def jsonDumpsTextObj (texts : List String) : String :=
  "\x7b\"text\": [" ++ joinWithComma (texts.map jsonQuote) ++ "]\x7d"

/-- The null byte used as the frame delimiter of the streamed body. -/
def nullChar : Char := Char.ofNat 0

/-- The projected text list built for one result (lines 58-62 and
85-89): one entry per output, echo rule applied with the prompt carried
by the result itself. -/
def chunkTexts (ret_ft : Bool) (r : IncrementalResult) : List String :=
  r.outputs.map fun o => projectText ret_ft r.prompt o.text

/-- The JSON part of one streamed chunk. -/
def chunkJson (ret_ft : Bool) (r : IncrementalResult) : String :=
  jsonDumpsTextObj (chunkTexts ret_ft r)

/-- One streamed chunk: the JSON object followed by the null delimiter
(line 64-66). -/
def streamChunk (ret_ft : Bool) (r : IncrementalResult) : String :=
  chunkJson ret_ft r ++ String.singleton nullChar

/-- The bytes a StreamingResponse places on the wire: the chunks in
emission order, concatenated. -/
def concatChunks : List String → String
  | [] => ""
  | c :: rest => c ++ concatChunks rest

/-- How many null bytes a string contains. -/
def countNull (s : String) : Nat := s.data.count nullChar

/-- Observable events of one handler run: pulling a result from the
engine generator, one await of request.is_disconnected() with the value
it returned, and one app.engine.abort call with its argument. -/
inductive Ev where
  | pull : IncrementalResult → Ev
  | check : Bool → Ev
  | abortCall : String → Ev

/-- The async generator of server.py lines 55-66: pull each result and
emit one encoded chunk for it. -/
def streaming_result (ret_ft : Bool) : List IncrementalResult → List Ev × List String
  | [] => ([], [])
  | r :: rest =>
    let acc := streaming_result ret_ft rest
    (Ev.pull r :: acc.1, streamChunk ret_ft r :: acc.2)

/-- What the Python function finally does with its value. -/
inductive HResult where
  | json : Nat → List (String × JVal) → HResult
  | stream : List String → HResult
  | noReturn : HResult
  | exn : PyErr → HResult

/-- Lines 83-93: if no result was ever retained the function falls off
the end returning None; otherwise the text list is built from the last
retained result and entry zero is returned in the success payload,
raising IndexError when the outputs list is empty. -/
def finalProject (ret_ft : Bool) : Option IncrementalResult → HResult
  | none => HResult.noReturn
  | some out =>
    match chunkTexts ret_ft out with
    | [] => HResult.exn PyErr.indexError
    | t :: _ =>
      HResult.json 200 [("generated_text", JVal.str t), ("status", JVal.int 200)]

/-- The non-streaming loop of lines 72-93: pull a result, then await
request.is_disconnected(); on disconnect abort the request and answer
499, otherwise retain the result and continue; on exhaustion project
the retained result. -/
def nonStreamLoop (req_id : String) (ret_ft : Bool) (disc : Nat → Bool) :
    List IncrementalResult → Nat → Option IncrementalResult → List Ev × HResult
  | [], _, last => ([], finalProject ret_ft last)
  | r :: rest, i, _ =>
    if disc i then
      ([Ev.pull r, Ev.check true, Ev.abortCall req_id],
       HResult.json 499 [("error", JVal.str "Request aborted")])
    else
      let acc := nonStreamLoop req_id ret_ft disc rest (i + 1) (some r)
      (Ev.pull r :: Ev.check false :: acc.1, acc.2)

/-- The outcome of one handler run: an exception raised before the
engine is invoked, or the engine call made plus the event trace and the
function's result. -/
inductive Outcome where
  | earlyExn : PyErr → Outcome
  | ran : EngineCall → List Ev → HResult → Outcome

/-- Event trace of an outcome. -/
def Outcome.trace : Outcome → List Ev
  | Outcome.earlyExn _ => []
  | Outcome.ran _ tr _ => tr

/-- Result of an outcome, when the engine was invoked at all. -/
def Outcome.result : Outcome → Option HResult
  | Outcome.earlyExn _ => none
  | Outcome.ran _ _ r => some r

/-- The engine invocation of an outcome, if one was made. -/
def Outcome.engineCall : Outcome → Option EngineCall
  | Outcome.earlyExn _ => none
  | Outcome.ran c _ _ => some c

/-- The whole endpoint of server.py lines 22-93, for one request body,
one engine yield sequence and one disconnect observation sequence. -/
def generate (engine : List IncrementalResult) (disc : Nat → Bool)
    (req_id : String) (body : List (String × JVal)) : Outcome :=
  match parseBody body with
  | Except.error e => Outcome.earlyExn e
  | Except.ok p =>
    if truthy p.streamVal then
      let sr := streaming_result (truthy p.ret_ft) engine
      Outcome.ran (mkEngineCall p req_id) sr.1 (HResult.stream sr.2)
    else
      let acc := nonStreamLoop req_id (truthy p.ret_ft) disc engine 0 none
      Outcome.ran (mkEngineCall p req_id) acc.1 acc.2

/-- The request ids passed to abort calls in a trace, in order. -/
def abortEvents : List Ev → List String
  | [] => []
  | Ev.abortCall s :: rest => s :: abortEvents rest
  | Ev.pull _ :: rest => abortEvents rest
  | Ev.check _ :: rest => abortEvents rest

/-- A trace that contains neither a disconnect check nor an abort call. -/
def noMonitorEvents : List Ev → Bool
  | [] => true
  | Ev.pull _ :: rest => noMonitorEvents rest
  | Ev.check _ :: _ => false
  | Ev.abortCall _ :: _ => false

/-- Scan for the ordering discipline of the claim: a disconnect check
must separate the start of the trace from the first pull, and any two
consecutive pulls.  The flag records whether a check has been seen
since the last pull (or the start). -/
def checkSincePull : Bool → List Ev → Bool
  | _, [] => true
  | _, Ev.check _ :: rest => checkSincePull true rest
  | ready, Ev.pull _ :: rest => ready && checkSincePull false rest
  | ready, Ev.abortCall _ :: rest => checkSincePull ready rest

/-- The disconnect monitor is consulted before each pull. -/
def checkBeforeEachPull (tr : List Ev) : Bool := checkSincePull false tr

/-- The disconnect monitor is consulted immediately after each pull. -/
def checkAfterEachPull : List Ev → Bool
  | [] => true
  | Ev.pull _ :: Ev.check _ :: rest => checkAfterEachPull rest
  | Ev.pull _ :: _ => false
  | Ev.check _ :: rest => checkAfterEachPull rest
  | Ev.abortCall _ :: rest => checkAfterEachPull rest

/-- The event trace of a non-streaming run over results none of which
saw a disconnect: each pull followed by a negative check. -/
def pollTrace : List IncrementalResult → List Ev
  | [] => []
  | r :: rest => Ev.pull r :: Ev.check false :: pollTrace rest

/-- The result retained by the non-streaming loop after draining the
given list, starting from an already-retained value. -/
def retained : Option IncrementalResult → List IncrementalResult → Option IncrementalResult
  | last, [] => last
  | _, r :: rest => retained (some r) rest

theorem streaming_result_fst (rf : Bool) (rs : List IncrementalResult) :
    (streaming_result rf rs).1 = rs.map Ev.pull := by
  induction rs with
  | nil => rfl
  | cons r rest ih => simp [streaming_result, ih]

theorem streaming_result_snd (rf : Bool) (rs : List IncrementalResult) :
    (streaming_result rf rs).2 = rs.map (streamChunk rf) := by
  induction rs with
  | nil => rfl
  | cons r rest ih => simp [streaming_result, ih]

theorem retained_append (last : Option IncrementalResult)
    (front : List IncrementalResult) (lastR : IncrementalResult) :
    retained last (front ++ [lastR]) = some lastR := by
  induction front generalizing last with
  | nil => rfl
  | cons r rest ih => simpa [retained] using ih (some r)

theorem nonStreamLoop_clean (req_id : String) (rf : Bool) (disc : Nat → Bool)
    (rs : List IncrementalResult) (i : Nat) (last : Option IncrementalResult)
    (h : ∀ j, j < rs.length → disc (i + j) = false) :
    nonStreamLoop req_id rf disc rs i last =
      (pollTrace rs, finalProject rf (retained last rs)) := by
  induction rs generalizing i last with
  | nil => rfl
  | cons r rest ih =>
    have h0 : disc i = false := by simpa using h 0 (by simp)
    have hrec := ih (i + 1) (some r) (fun j hj => by
      rw [Nat.add_assoc, Nat.add_comm 1 j]
      exact h (j + 1) (by simpa using Nat.succ_lt_succ hj))
    simp [nonStreamLoop, h0, hrec, pollTrace, retained]

theorem nonStreamLoop_disc (req_id : String) (rf : Bool) (disc : Nat → Bool)
    (rs : List IncrementalResult) (i k : Nat) (last : Option IncrementalResult)
    (hk : k < rs.length) (hdk : disc (i + k) = true)
    (hprev : ∀ j, j < k → disc (i + j) = false) :
    nonStreamLoop req_id rf disc rs i last =
      (pollTrace (rs.take k) ++
         [Ev.pull (rs.get ⟨k, hk⟩), Ev.check true, Ev.abortCall req_id],
       HResult.json 499 [("error", JVal.str "Request aborted")]) := by
  induction rs generalizing i k last with
  | nil => exact absurd hk (by simp)
  | cons r rest ih =>
    cases k with
    | zero =>
      have h0 : disc i = true := by simpa using hdk
      simp [nonStreamLoop, h0, pollTrace]
    | succ k2 =>
      have h0 : disc i = false := by simpa using hprev 0 (Nat.succ_pos k2)
      have hk2 : k2 < rest.length := by simpa using hk
      have hd2 : disc (i + 1 + k2) = true := by
        rw [Nat.add_assoc, Nat.add_comm 1 k2]
        simpa using hdk
      have hp2 : ∀ j, j < k2 → disc (i + 1 + j) = false := fun j hj => by
        rw [Nat.add_assoc, Nat.add_comm 1 j]
        exact hprev (j + 1) (Nat.succ_lt_succ hj)
      have hrec := ih (i + 1) k2 (some r) hk2 hd2 hp2
      simp [nonStreamLoop, h0, hrec, pollTrace]

theorem digitChar_lt16_ne_null : ∀ m, m < 16 → Nat.digitChar m ≠ nullChar := by
  decide

theorem hexChar_ne_null (n : Nat) : hexChar n ≠ nullChar :=
  digitChar_lt16_ne_null (n % 16) (Nat.mod_lt n (by decide))

theorem null_not_in_hex4 (n : Nat) : nullChar ∉ (hex4 n).data := by
  intro h
  have h2 : nullChar ∈
      [hexChar (n / 4096), hexChar (n / 256), hexChar (n / 16), hexChar n] := h
  simp only [List.mem_cons, List.not_mem_nil, or_false] at h2
  rcases h2 with h2 | h2 | h2 | h2 <;> exact hexChar_ne_null _ h2.symm

theorem null_not_in_append (a b : String) (ha : nullChar ∉ a.data)
    (hb : nullChar ∉ b.data) : nullChar ∉ (a ++ b).data := by
  rw [String.data_append]
  intro h
  rcases List.mem_append.mp h with h | h
  exacts [ha h, hb h]

set_option maxHeartbeats 1000000 in
theorem null_not_in_jsonEscapeChar (c : Char) : nullChar ∉ (jsonEscapeChar c).data := by
  unfold jsonEscapeChar
  split_ifs with h1 h2 h3 h4 h5 h6 h7 h8 h9 h10
  · decide
  · decide
  · decide
  · decide
  · decide
  · decide
  · decide
  · exact null_not_in_append _ _ (by decide) (null_not_in_hex4 _)
  · intro hmem
    have he : nullChar = c := List.mem_singleton.mp hmem
    exact h8 (he ▸ (by decide : nullChar.toNat < 32))
  · exact null_not_in_append _ _ (by decide) (null_not_in_hex4 _)
  · exact null_not_in_append _ _
      (null_not_in_append _ _
        (null_not_in_append _ _ (by decide) (null_not_in_hex4 _)) (by decide))
      (null_not_in_hex4 _)

theorem null_not_in_escapeList (cs : List Char) : nullChar ∉ (escapeList cs).data := by
  induction cs with
  | nil => decide
  | cons c rest ih => exact null_not_in_append _ _ (null_not_in_jsonEscapeChar c) ih

theorem null_not_in_jsonQuote (s : String) : nullChar ∉ (jsonQuote s).data :=
  null_not_in_append _ _
    (null_not_in_append _ _ (by decide) (null_not_in_escapeList s.data)) (by decide)

theorem null_not_in_joinWithComma :
    ∀ (l : List String), (∀ s ∈ l, nullChar ∉ s.data) →
      nullChar ∉ (joinWithComma l).data
  | [], _ => by decide
  | [s], h => by simpa [joinWithComma] using h s (by simp)
  | s :: s2 :: rest, h =>
    null_not_in_append (s ++ ", ") (joinWithComma (s2 :: rest))
      (null_not_in_append s ", " (h s (by simp))
        (by decide : nullChar ∉ (", " : String).data))
      (null_not_in_joinWithComma (s2 :: rest)
        (fun t ht => h t (List.mem_cons_of_mem s ht)))

theorem null_not_in_jsonDumpsTextObj (texts : List String) :
    nullChar ∉ (jsonDumpsTextObj texts).data := by
  have hj : ∀ s ∈ texts.map jsonQuote, nullChar ∉ s.data := by
    intro s hs
    rcases List.mem_map.mp hs with ⟨t, _, rfl⟩
    exact null_not_in_jsonQuote t
  exact null_not_in_append _ _
    (null_not_in_append _ _ (by decide) (null_not_in_joinWithComma _ hj))
    (by decide)

theorem countNull_streamChunk (rf : Bool) (r : IncrementalResult) :
    countNull (streamChunk rf r) = 1 := by
  unfold countNull streamChunk
  rw [String.data_append, List.count_append]
  have h0 : (chunkJson rf r).data.count nullChar = 0 :=
    List.count_eq_zero.mpr (null_not_in_jsonDumpsTextObj _)
  rw [h0]
  decide

theorem countNull_concatChunks (l : List String) (h : ∀ c ∈ l, countNull c = 1) :
    countNull (concatChunks l) = l.length := by
  induction l with
  | nil => decide
  | cons c rest ih =>
    have h1 : c.data.count nullChar = 1 := h c (by simp)
    have hr : (concatChunks rest).data.count nullChar = rest.length :=
      ih (fun t ht => h t (List.mem_cons_of_mem c ht))
    show (c ++ concatChunks rest).data.count nullChar = rest.length + 1
    rw [String.data_append, List.count_append, h1, hr]
    omega

theorem append_ne_right (p t : String) (hp : p ≠ "") : p ++ t ≠ t := by
  intro h
  apply hp
  have hl := congrArg String.length h
  rw [String.length_append] at hl
  have hp0 : p.length = 0 := by omega
  cases p with
  | mk d =>
    cases d with
    | nil => rfl
    | cons c cs => simp [String.length] at hp0

theorem abortEvents_append (a b : List Ev) :
    abortEvents (a ++ b) = abortEvents a ++ abortEvents b := by
  induction a with
  | nil => rfl
  | cons e rest ih => cases e <;> simp [abortEvents, ih]

theorem abortEvents_pollTrace (rs : List IncrementalResult) :
    abortEvents (pollTrace rs) = [] := by
  induction rs with
  | nil => rfl
  | cons r rest ih => simp [pollTrace, abortEvents, ih]

theorem abortEvents_map_pull (rs : List IncrementalResult) :
    abortEvents (rs.map Ev.pull) = [] := by
  induction rs with
  | nil => rfl
  | cons r rest ih => simp [abortEvents, ih]

theorem noMonitorEvents_map_pull (rs : List IncrementalResult) :
    noMonitorEvents (rs.map Ev.pull) = true := by
  induction rs with
  | nil => rfl
  | cons r rest ih => simp [noMonitorEvents, ih]

theorem checkAfterEachPull_pollTrace_append (rs : List IncrementalResult)
    (tail : List Ev) (h : checkAfterEachPull tail = true) :
    checkAfterEachPull (pollTrace rs ++ tail) = true := by
  induction rs with
  | nil => simpa using h
  | cons r rest ih => simpa [pollTrace, checkAfterEachPull] using ih

theorem popKey_lookup :
    ∀ (d : List (String × JVal)) (k : String) (v : JVal) (d2 : List (String × JVal)),
      popKey k d = some (v, d2) → lookupKey k d = some v
  | [], k, v, d2, h => by simp [popKey] at h
  | (k3, v3) :: rest, k, v, d2, h => by
    by_cases hk : k3 = k
    · simp only [popKey, if_pos hk, Option.some.injEq, Prod.mk.injEq] at h
      simp only [lookupKey, if_pos hk]
      rw [h.1]
    · simp only [popKey, if_neg hk] at h
      simp only [lookupKey, if_neg hk]
      cases hpr : popKey k rest with
      | none => rw [hpr] at h; simp at h
      | some pr =>
        obtain ⟨v4, rest4⟩ := pr
        rw [hpr] at h
        simp only [Option.some.injEq, Prod.mk.injEq] at h
        rw [← h.1]
        exact popKey_lookup rest k v4 rest4 hpr

theorem popKey_none :
    ∀ (d : List (String × JVal)) (k : String),
      popKey k d = none → lookupKey k d = none
  | [], _, _ => rfl
  | (k3, v3) :: rest, k, h => by
    by_cases hk : k3 = k
    · simp [popKey, if_pos hk] at h
    · simp only [popKey, if_neg hk] at h
      simp only [lookupKey, if_neg hk]
      cases hpr : popKey k rest with
      | none => exact popKey_none rest k hpr
      | some pr =>
        obtain ⟨v4, rest4⟩ := pr
        rw [hpr] at h
        simp at h

theorem popKey_preserve :
    ∀ (d : List (String × JVal)) (k k2 : String) (v : JVal) (d2 : List (String × JVal)),
      k ≠ k2 → popKey k2 d = some (v, d2) → lookupKey k d2 = lookupKey k d
  | [], _, _, _, _, _, h => by simp [popKey] at h
  | (k3, v3) :: rest, k, k2, v, d2, hne, h => by
    by_cases hk : k3 = k2
    · simp only [popKey, if_pos hk, Option.some.injEq, Prod.mk.injEq] at h
      rw [← h.2]
      have hk3 : ¬ k3 = k := by
        rw [hk]
        exact fun hh => hne hh.symm
      simp [lookupKey, hk3]
    · simp only [popKey, if_neg hk] at h
      cases hpr : popKey k2 rest with
      | none => rw [hpr] at h; simp at h
      | some pr =>
        obtain ⟨v4, rest4⟩ := pr
        rw [hpr] at h
        simp only [Option.some.injEq, Prod.mk.injEq] at h
        rw [← h.2]
        by_cases hk3 : k3 = k
        · simp [lookupKey, hk3]
        · simp only [lookupKey, if_neg hk3]
          exact popKey_preserve rest k k2 v4 rest4 hne hpr

theorem popKey_sublist :
    ∀ (d : List (String × JVal)) (k : String) (v : JVal) (d2 : List (String × JVal)),
      popKey k d = some (v, d2) → d2.Sublist d
  | [], _, _, _, h => by simp [popKey] at h
  | (k3, v3) :: rest, k, v, d2, h => by
    by_cases hk : k3 = k
    · simp only [popKey, if_pos hk, Option.some.injEq, Prod.mk.injEq] at h
      rw [← h.2]
      exact List.sublist_cons_self _ _
    · simp only [popKey, if_neg hk] at h
      cases hpr : popKey k rest with
      | none => rw [hpr] at h; simp at h
      | some pr =>
        obtain ⟨v4, rest4⟩ := pr
        rw [hpr] at h
        simp only [Option.some.injEq, Prod.mk.injEq] at h
        rw [← h.2]
        exact List.Sublist.cons₂ _ (popKey_sublist rest k v4 rest4 hpr)

theorem lookupKey_eq_none_iff :
    ∀ (d : List (String × JVal)) (k : String),
      lookupKey k d = none ↔ k ∉ d.map Prod.fst
  | [], k => by simp [lookupKey]
  | (k3, v3) :: rest, k => by
    by_cases hk : k3 = k
    · simp [lookupKey, hk]
    · simp only [lookupKey, if_neg hk, List.map_cons, List.mem_cons]
      rw [lookupKey_eq_none_iff rest k]
      constructor
      · rintro hn (h | h)
        · exact hk h.symm
        · exact hn h
      · intro hn hm
        exact hn (Or.inr hm)

theorem popKey_lookup_none :
    ∀ (d : List (String × JVal)) (k : String) (v : JVal) (d2 : List (String × JVal)),
      (d.map Prod.fst).Nodup → popKey k d = some (v, d2) → lookupKey k d2 = none
  | [], _, _, _, _, h => by simp [popKey] at h
  | (k3, v3) :: rest, k, v, d2, hnd, h => by
    have hnd2 : (rest.map Prod.fst).Nodup := by
      simpa [List.nodup_cons] using List.Nodup.of_cons hnd
    by_cases hk : k3 = k
    · simp only [popKey, if_pos hk, Option.some.injEq, Prod.mk.injEq] at h
      rw [← h.2, lookupKey_eq_none_iff, ← hk]
      have : k3 ∉ rest.map Prod.fst := by
        have hcons : (k3 :: rest.map Prod.fst).Nodup := by simpa using hnd
        exact (List.nodup_cons.mp hcons).1
      exact this
    · simp only [popKey, if_neg hk] at h
      cases hpr : popKey k rest with
      | none => rw [hpr] at h; simp at h
      | some pr =>
        obtain ⟨v4, rest4⟩ := pr
        rw [hpr] at h
        simp only [Option.some.injEq, Prod.mk.injEq] at h
        rw [← h.2]
        simp only [lookupKey, if_neg hk]
        exact popKey_lookup_none rest k v4 rest4 hnd2 hpr

theorem lookupKey_none_of_sublist (k : String) (d2 d : List (String × JVal))
    (h : d2.Sublist d) (hn : lookupKey k d = none) : lookupKey k d2 = none := by
  rw [lookupKey_eq_none_iff] at hn ⊢
  intro hm
  exact hn ((h.map Prod.fst).subset hm)

theorem popKeyD_fst (k : String) (dflt : JVal) (d : List (String × JVal)) :
    (popKeyD k dflt d).1 = (lookupKey k d).getD dflt := by
  unfold popKeyD
  cases hpr : popKey k d with
  | none => rw [popKey_none d k hpr]; rfl
  | some pr =>
    obtain ⟨v, d2⟩ := pr
    rw [popKey_lookup d k v d2 hpr]
    rfl

theorem popKeyD_preserve (k k2 : String) (dflt : JVal) (d : List (String × JVal))
    (hne : k ≠ k2) : lookupKey k (popKeyD k2 dflt d).2 = lookupKey k d := by
  unfold popKeyD
  cases hpr : popKey k2 d with
  | none => rfl
  | some pr =>
    obtain ⟨v, d2⟩ := pr
    exact popKey_preserve d k k2 v d2 hne hpr

theorem popKeyD_sublist (k : String) (dflt : JVal) (d : List (String × JVal)) :
    (popKeyD k dflt d).2.Sublist d := by
  unfold popKeyD
  cases hpr : popKey k d with
  | none => exact List.Sublist.refl d
  | some pr =>
    obtain ⟨v, d2⟩ := pr
    exact popKey_sublist d k v d2 hpr

theorem popKeyD_lookup_none (k : String) (dflt : JVal) (d : List (String × JVal))
    (hnd : (d.map Prod.fst).Nodup) : lookupKey k (popKeyD k dflt d).2 = none := by
  unfold popKeyD
  cases hpr : popKey k d with
  | none => exact popKey_none d k hpr
  | some pr =>
    obtain ⟨v, d2⟩ := pr
    exact popKey_lookup_none d k v d2 hnd hpr

theorem parseBody_ok_eq (body d1 d2 params p1 : List (String × JVal)) (pv mv : JVal)
    (h1 : popKey "inputs" body = some (pv, d1))
    (h2 : popKey "parameters" d1 = some (JVal.obj params, d2))
    (hm : popKey "max_new_tokens" params = some (mv, p1)) :
    parseBody body = Except.ok
      ⟨pv, (popKeyD "stream" (JVal.bool false) d2).1, mv,
       (popKeyD "return_full_text" (JVal.bool false) p1).1,
       (popKeyD "do_sample" (JVal.bool true)
         (popKeyD "return_full_text" (JVal.bool false) p1).2).1,
       (popKeyD "do_sample" (JVal.bool true)
         (popKeyD "return_full_text" (JVal.bool false) p1).2).2⟩ := by
  simp only [parseBody, h1, h2, hm]

theorem generate_ok_nonstream (engine : List IncrementalResult) (disc : Nat → Bool)
    (req_id : String) (body : List (String × JVal)) (p : ParsedReq)
    (hp : parseBody body = Except.ok p) (hs : truthy p.streamVal = false) :
    generate engine disc req_id body =
      Outcome.ran (mkEngineCall p req_id)
        (nonStreamLoop req_id (truthy p.ret_ft) disc engine 0 none).1
        (nonStreamLoop req_id (truthy p.ret_ft) disc engine 0 none).2 := by
  simp [generate, hp, hs]

theorem generate_ok_stream (engine : List IncrementalResult) (disc : Nat → Bool)
    (req_id : String) (body : List (String × JVal)) (p : ParsedReq)
    (hp : parseBody body = Except.ok p) (hs : truthy p.streamVal = true) :
    generate engine disc req_id body =
      Outcome.ran (mkEngineCall p req_id) (engine.map Ev.pull)
        (HResult.stream (engine.map (streamChunk (truthy p.ret_ft)))) := by
  simp [generate, hp, hs, streaming_result_fst, streaming_result_snd]

theorem nonStreamLoop_result_id (id1 id2 : String) (rf : Bool) (disc : Nat → Bool) :
    ∀ (rs : List IncrementalResult) (i : Nat) (last : Option IncrementalResult),
      (nonStreamLoop id1 rf disc rs i last).2 = (nonStreamLoop id2 rf disc rs i last).2
  | [], _, _ => rfl
  | r :: rest, i, last => by
    by_cases hd : disc i = true
    · simp [nonStreamLoop, hd]
    · simp only [nonStreamLoop, if_neg hd]
      exact nonStreamLoop_result_id id1 id2 rf disc rest (i + 1) (some r)

/-- C1: for every valid request with stream=false whose engine sequence
yields at least one IncrementalResult (and whose client never
disconnects, so that the sequence is drained), the handler returns an
HTTP 200 JSON body with generated_text the text of output entry zero of
the last IncrementalResult yielded, prefixed by the prompt exactly when
return_full_text is truthy, and a status field of 200. -/
theorem c1_nonstream_success
    (engine front : List IncrementalResult) (lastR : IncrementalResult)
    (o : CompletionOutput) (outs : List CompletionOutput)
    (disc : Nat → Bool) (req_id : String) (body : List (String × JVal)) (p : ParsedReq)
    (hp : parseBody body = Except.ok p)
    (hs : truthy p.streamVal = false)
    (hseq : engine = front ++ [lastR])
    (houts : lastR.outputs = o :: outs)
    (hnd : ∀ j, j < engine.length → disc j = false) :
    generate engine disc req_id body =
      Outcome.ran (mkEngineCall p req_id) (pollTrace engine)
        (HResult.json 200
          [("generated_text",
            JVal.str (projectText (truthy p.ret_ft) lastR.prompt o.text)),
           ("status", JVal.int 200)]) := by
  rw [generate_ok_nonstream engine disc req_id body p hp hs]
  have hnd0 : ∀ j, j < engine.length → disc (0 + j) = false := fun j hj => by
    simpa using hnd j hj
  rw [nonStreamLoop_clean req_id (truthy p.ret_ft) disc engine 0 none hnd0]
  subst hseq
  rw [retained_append]
  simp [finalProject, chunkTexts, houts]

/-- Witness for C1: scenario 1 of the spec, one engine result with one
output, client connected throughout, return_full_text absent. -/
theorem c1_nonstream_success_witness :
    generate [⟨"Hello", [⟨" world"⟩]⟩] (fun _ => false) "req-1"
        [("inputs", JVal.str "Hello"),
         ("parameters", JVal.obj [("max_new_tokens", JVal.int 5)])] =
      Outcome.ran
        ⟨JVal.str "Hello", ⟨JVal.int 5, JVal.bool true, []⟩, "req-1"⟩
        [Ev.pull ⟨"Hello", [⟨" world"⟩]⟩, Ev.check false]
        (HResult.json 200
          [("generated_text", JVal.str " world"), ("status", JVal.int 200)]) := by
  exact c1_nonstream_success [⟨"Hello", [⟨" world"⟩]⟩] [] ⟨"Hello", [⟨" world"⟩]⟩
    ⟨" world"⟩ [] (fun _ => false) "req-1"
    [("inputs", JVal.str "Hello"),
     ("parameters", JVal.obj [("max_new_tokens", JVal.int 5)])]
    ⟨JVal.str "Hello", JVal.bool false, JVal.int 5, JVal.bool false, JVal.bool true, []⟩
    rfl rfl rfl rfl (fun j hj => rfl)

/-- C2: for every valid request with stream=true, the handler streams
exactly one chunk per IncrementalResult, in emission order; each chunk
is the JSON text object over that result's outputs (echo rule applied
per entry) followed by a single null byte, the JSON part itself being
free of null bytes, so the concatenated body contains exactly one null
delimiter per result. -/
theorem c2_streaming_chunks
    (engine : List IncrementalResult) (disc : Nat → Bool) (req_id : String)
    (body : List (String × JVal)) (p : ParsedReq)
    (hp : parseBody body = Except.ok p)
    (hs : truthy p.streamVal = true) :
    generate engine disc req_id body =
      Outcome.ran (mkEngineCall p req_id) (engine.map Ev.pull)
        (HResult.stream (engine.map (streamChunk (truthy p.ret_ft)))) ∧
    (∀ r ∈ engine,
      streamChunk (truthy p.ret_ft) r =
        jsonDumpsTextObj (chunkTexts (truthy p.ret_ft) r) ++ String.singleton nullChar ∧
      (chunkTexts (truthy p.ret_ft) r).length = r.outputs.length ∧
      nullChar ∉ (chunkJson (truthy p.ret_ft) r).data) ∧
    countNull (concatChunks (engine.map (streamChunk (truthy p.ret_ft)))) =
      engine.length := by
  refine ⟨generate_ok_stream engine disc req_id body p hp hs, ?_, ?_⟩
  · intro r _
    refine ⟨rfl, by simp [chunkTexts], null_not_in_jsonDumpsTextObj _⟩
  · rw [countNull_concatChunks]
    · simp
    · intro c hc
      rcases List.mem_map.mp hc with ⟨r, _, rfl⟩
      exact countNull_streamChunk _ r

/-- Witness for C2: scenario 5 of the spec, two engine results streamed
as two null-delimited chunks. -/
theorem c2_streaming_chunks_witness :
    generate [⟨"Hi", [⟨"a"⟩]⟩, ⟨"Hi", [⟨"ab"⟩]⟩] (fun _ => false) "req-2"
        [("inputs", JVal.str "Hi"),
         ("parameters", JVal.obj [("max_new_tokens", JVal.int 5)]),
         ("stream", JVal.bool true)] =
      Outcome.ran
        ⟨JVal.str "Hi", ⟨JVal.int 5, JVal.bool true, []⟩, "req-2"⟩
        [Ev.pull ⟨"Hi", [⟨"a"⟩]⟩, Ev.pull ⟨"Hi", [⟨"ab"⟩]⟩]
        (HResult.stream
          [streamChunk false ⟨"Hi", [⟨"a"⟩]⟩, streamChunk false ⟨"Hi", [⟨"ab"⟩]⟩]) ∧
    countNull (concatChunks
        [streamChunk false ⟨"Hi", [⟨"a"⟩]⟩, streamChunk false ⟨"Hi", [⟨"ab"⟩]⟩]) = 2 := by
  have h := c2_streaming_chunks [⟨"Hi", [⟨"a"⟩]⟩, ⟨"Hi", [⟨"ab"⟩]⟩] (fun _ => false)
    "req-2"
    [("inputs", JVal.str "Hi"),
     ("parameters", JVal.obj [("max_new_tokens", JVal.int 5)]),
     ("stream", JVal.bool true)]
    ⟨JVal.str "Hi", JVal.bool true, JVal.int 5, JVal.bool false, JVal.bool true, []⟩
    rfl rfl
  exact ⟨h.1, h.2.2⟩

/-- Counterexample to C3 as stated: with the client already disconnected
before generation starts and one available engine result, the recorded
trace is pull first and check second, so the disconnect monitor is NOT
consulted before each pull of an IncrementalResult; the code checks
only after a result has already been pulled from the engine. -/
theorem c3_check_before_pull_counterexample :
    checkBeforeEachPull
      (generate [⟨"Hello", [⟨" world"⟩]⟩] (fun _ => true) "req-3"
        [("inputs", JVal.str "Hello"),
         ("parameters", JVal.obj [("max_new_tokens", JVal.int 5)])]).trace = false ∧
    (generate [⟨"Hello", [⟨" world"⟩]⟩] (fun _ => true) "req-3"
        [("inputs", JVal.str "Hello"),
         ("parameters", JVal.obj [("max_new_tokens", JVal.int 5)])]).trace =
      [Ev.pull ⟨"Hello", [⟨" world"⟩]⟩, Ev.check true, Ev.abortCall "req-3"] := by
  exact ⟨rfl, rfl⟩

/-- C3 as amended: in non-streaming mode the monitor is consulted after
each pull (not before); when the first disconnect observation occurs at
iteration k the handler answers 499 with the error payload and invokes
abort exactly once, with the request's id. -/
theorem c3_disconnect_aborts_once
    (engine : List IncrementalResult) (disc : Nat → Bool) (req_id : String)
    (body : List (String × JVal)) (p : ParsedReq) (k : Nat)
    (hp : parseBody body = Except.ok p)
    (hs : truthy p.streamVal = false)
    (hk : k < engine.length)
    (hdk : disc k = true)
    (hprev : ∀ j, j < k → disc j = false) :
    (generate engine disc req_id body).result =
        some (HResult.json 499 [("error", JVal.str "Request aborted")]) ∧
    abortEvents (generate engine disc req_id body).trace = [req_id] ∧
    checkAfterEachPull (generate engine disc req_id body).trace = true := by
  have hd0 : disc (0 + k) = true := by simpa using hdk
  have hp0 : ∀ j, j < k → disc (0 + j) = false := fun j hj => by simpa using hprev j hj
  have hloop := nonStreamLoop_disc req_id (truthy p.ret_ft) disc engine 0 k none hk hd0 hp0
  have hgen : generate engine disc req_id body =
      Outcome.ran (mkEngineCall p req_id)
        (pollTrace (engine.take k) ++
          [Ev.pull (engine.get ⟨k, hk⟩), Ev.check true, Ev.abortCall req_id])
        (HResult.json 499 [("error", JVal.str "Request aborted")]) := by
    rw [generate_ok_nonstream engine disc req_id body p hp hs, hloop]
  rw [hgen]
  refine ⟨rfl, ?_, ?_⟩
  · show abortEvents (pollTrace (engine.take k) ++
      [Ev.pull (engine.get ⟨k, hk⟩), Ev.check true, Ev.abortCall req_id]) = [req_id]
    rw [abortEvents_append, abortEvents_pollTrace]
    rfl
  · exact checkAfterEachPull_pollTrace_append _ _ rfl

/-- Witness for the amended C3: scenario 3 of the spec, the client
disconnects after the first intermediate result was pulled; the second
iteration observes it, aborts once and answers 499. -/
theorem c3_disconnect_aborts_once_witness :
    (generate [⟨"Hello", [⟨" wo"⟩]⟩, ⟨"Hello", [⟨" world"⟩]⟩] (fun i => i == 1)
        "req-3b"
        [("inputs", JVal.str "Hello"),
         ("parameters", JVal.obj [("max_new_tokens", JVal.int 5)])]).result =
        some (HResult.json 499 [("error", JVal.str "Request aborted")]) ∧
    abortEvents
      (generate [⟨"Hello", [⟨" wo"⟩]⟩, ⟨"Hello", [⟨" world"⟩]⟩] (fun i => i == 1)
        "req-3b"
        [("inputs", JVal.str "Hello"),
         ("parameters", JVal.obj [("max_new_tokens", JVal.int 5)])]).trace = ["req-3b"] := by
  have h := c3_disconnect_aborts_once
    [⟨"Hello", [⟨" wo"⟩]⟩, ⟨"Hello", [⟨" world"⟩]⟩] (fun i => i == 1) "req-3b"
    [("inputs", JVal.str "Hello"),
     ("parameters", JVal.obj [("max_new_tokens", JVal.int 5)])]
    ⟨JVal.str "Hello", JVal.bool false, JVal.int 5, JVal.bool false, JVal.bool true, []⟩
    1 rfl rfl (by decide) rfl
    (fun j hj => by
      have hj0 : j = 0 := Nat.lt_one_iff.mp hj
      subst hj0
      rfl)
  exact ⟨h.1, h.2.1⟩

/-- C4, evaluated on the failing input: a request body whose parameters
mapping lacks max_new_tokens makes the handler raise KeyError before
the engine generate call; no MalformedRequest or 4xx handling exists in
the code, so the 4xx half of the claim names intended behavior the
source does not implement, while the engine is indeed never invoked. -/
theorem c4_missing_max_new_tokens_keyerror :
    generate [⟨"Hello", [⟨" world"⟩]⟩] (fun _ => false) "req-4"
        [("inputs", JVal.str "Hello"), ("parameters", JVal.obj [])] =
      Outcome.earlyExn (PyErr.keyError "max_new_tokens") ∧
    (generate [⟨"Hello", [⟨" world"⟩]⟩] (fun _ => false) "req-4"
        [("inputs", JVal.str "Hello"), ("parameters", JVal.obj [])]).engineCall =
      none ∧
    generate [⟨"Hello", [⟨" world"⟩]⟩] (fun _ => false) "req-4b"
        [("parameters", JVal.obj [("max_new_tokens", JVal.int 5)])] =
      Outcome.earlyExn (PyErr.keyError "inputs") ∧
    generate [⟨"Hello", [⟨" world"⟩]⟩] (fun _ => false) "req-4c"
        [("inputs", JVal.str "Hello")] =
      Outcome.earlyExn (PyErr.keyError "parameters") := by
  exact ⟨rfl, rfl, rfl, rfl⟩

/-- C5: the echo rule used for every output entry by both the streaming
and the non-streaming projection: with return_full_text the projected
text is prompt ++ outputText, without it the outputText alone, and for
a non-empty prompt the two differ. -/
theorem c5_echo_projection (prompt text : String) :
    projectText true prompt text = prompt ++ text ∧
    projectText false prompt text = text ∧
    (∀ (r : IncrementalResult) (rf : Bool),
      chunkTexts rf r = r.outputs.map fun o => projectText rf r.prompt o.text) ∧
    (prompt ≠ "" → projectText true prompt text ≠ projectText false prompt text) := by
  refine ⟨rfl, rfl, fun r rf => rfl, ?_⟩
  intro hp
  show prompt ++ text ≠ text
  exact append_ne_right prompt text hp

/-- Witness for C5 at scenario 2's prompt and output text. -/
theorem c5_echo_projection_witness :
    projectText true "Hello" " world" = "Hello world" ∧
    projectText false "Hello" " world" = " world" ∧
    projectText true "Hello" " world" ≠ projectText false "Hello" " world" := by
  have h := c5_echo_projection "Hello" " world"
  exact ⟨h.1.trans rfl, h.2.1, h.2.2.2 (by decide)⟩

/-- C6: for every valid request, the do_sample value of the parameters
mapping (defaulting to true when absent) is passed verbatim as the
use_beam_search argument of the SamplingParams handed to the engine. -/
theorem c6_do_sample_forwarded_as_use_beam_search
    (body d1 d2 params p1 : List (String × JVal)) (pv mv : JVal) (p : ParsedReq)
    (req_id : String)
    (h1 : popKey "inputs" body = some (pv, d1))
    (h2 : popKey "parameters" d1 = some (JVal.obj params, d2))
    (hm : popKey "max_new_tokens" params = some (mv, p1))
    (hp : parseBody body = Except.ok p) :
    (mkEngineCall p req_id).sampling.use_beam_search =
      (lookupKey "do_sample" params).getD (JVal.bool true) := by
  have he := parseBody_ok_eq body d1 d2 params p1 pv mv h1 h2 hm
  rw [hp] at he
  have hpe := Except.ok.inj he
  subst hpe
  show (popKeyD "do_sample" (JVal.bool true)
      (popKeyD "return_full_text" (JVal.bool false) p1).2).1 = _
  rw [popKeyD_fst]
  rw [popKeyD_preserve "do_sample" "return_full_text" (JVal.bool false) p1 (by decide)]
  rw [popKey_preserve params "do_sample" "max_new_tokens" mv p1 (by decide) hm]

/-- Witness for C6: do_sample set to false in the request is forwarded
as use_beam_search false. -/
theorem c6_do_sample_witness :
    (mkEngineCall
      ⟨JVal.str "Hi", JVal.bool false, JVal.int 3, JVal.bool false, JVal.bool false,
       [("temperature", JVal.int 1)]⟩ "req-6").sampling.use_beam_search =
      JVal.bool false := by
  have h := c6_do_sample_forwarded_as_use_beam_search
    [("inputs", JVal.str "Hi"),
     ("parameters", JVal.obj
       [("max_new_tokens", JVal.int 3), ("do_sample", JVal.bool false),
        ("temperature", JVal.int 1)])]
    [("parameters", JVal.obj
       [("max_new_tokens", JVal.int 3), ("do_sample", JVal.bool false),
        ("temperature", JVal.int 1)])]
    []
    [("max_new_tokens", JVal.int 3), ("do_sample", JVal.bool false),
     ("temperature", JVal.int 1)]
    [("do_sample", JVal.bool false), ("temperature", JVal.int 1)]
    (JVal.str "Hi") (JVal.int 3)
    ⟨JVal.str "Hi", JVal.bool false, JVal.int 3, JVal.bool false, JVal.bool false,
     [("temperature", JVal.int 1)]⟩
    "req-6" rfl rfl rfl rfl
  exact h.trans rfl

/-- C7: every key of the parameters mapping other than the three
reserved keys is forwarded verbatim into the extra sampling options of
the engine call (the extras are a sublist of the parameters mapping and
agree with it on every non-reserved key), and none of the three
reserved keys survives among the extras. -/
theorem c7_extra_params_forwarded
    (body d1 d2 params p1 : List (String × JVal)) (pv mv : JVal) (p : ParsedReq)
    (req_id : String)
    (h1 : popKey "inputs" body = some (pv, d1))
    (h2 : popKey "parameters" d1 = some (JVal.obj params, d2))
    (hm : popKey "max_new_tokens" params = some (mv, p1))
    (hp : parseBody body = Except.ok p)
    (hnd : (params.map Prod.fst).Nodup) :
    (∀ k2, k2 ≠ "max_new_tokens" → k2 ≠ "return_full_text" → k2 ≠ "do_sample" →
      lookupKey k2 (mkEngineCall p req_id).sampling.extra = lookupKey k2 params) ∧
    lookupKey "max_new_tokens" (mkEngineCall p req_id).sampling.extra = none ∧
    lookupKey "return_full_text" (mkEngineCall p req_id).sampling.extra = none ∧
    lookupKey "do_sample" (mkEngineCall p req_id).sampling.extra = none ∧
    List.Sublist (mkEngineCall p req_id).sampling.extra params := by
  have he := parseBody_ok_eq body d1 d2 params p1 pv mv h1 h2 hm
  rw [hp] at he
  have hpe := Except.ok.inj he
  subst hpe
  have hsub1 : p1.Sublist params := popKey_sublist params "max_new_tokens" mv p1 hm
  have hnd1 : (p1.map Prod.fst).Nodup := List.Nodup.sublist (hsub1.map Prod.fst) hnd
  have hsub2 : (popKeyD "return_full_text" (JVal.bool false) p1).2.Sublist p1 :=
    popKeyD_sublist "return_full_text" (JVal.bool false) p1
  have hnd2 : ((popKeyD "return_full_text" (JVal.bool false) p1).2.map Prod.fst).Nodup :=
    List.Nodup.sublist (hsub2.map Prod.fst) hnd1
  have hsub3 : (popKeyD "do_sample" (JVal.bool true)
      (popKeyD "return_full_text" (JVal.bool false) p1).2).2.Sublist
      (popKeyD "return_full_text" (JVal.bool false) p1).2 :=
    popKeyD_sublist "do_sample" (JVal.bool true) _
  refine ⟨?_, ?_, ?_, ?_, ?_⟩
  · intro k2 hmt hrf hds
    show lookupKey k2 (popKeyD "do_sample" (JVal.bool true)
      (popKeyD "return_full_text" (JVal.bool false) p1).2).2 = lookupKey k2 params
    rw [popKeyD_preserve k2 "do_sample" (JVal.bool true) _ hds]
    rw [popKeyD_preserve k2 "return_full_text" (JVal.bool false) p1 hrf]
    exact popKey_preserve params k2 "max_new_tokens" mv p1 hmt hm
  · have hn1 : lookupKey "max_new_tokens" p1 = none :=
      popKey_lookup_none params "max_new_tokens" mv p1 hnd hm
    exact lookupKey_none_of_sublist "max_new_tokens" _ p1
      (List.Sublist.trans hsub3 hsub2)
      hn1
  · have hn2 : lookupKey "return_full_text"
        (popKeyD "return_full_text" (JVal.bool false) p1).2 = none :=
      popKeyD_lookup_none "return_full_text" (JVal.bool false) p1 hnd1
    exact lookupKey_none_of_sublist "return_full_text" _ _ hsub3 hn2
  · exact popKeyD_lookup_none "do_sample" (JVal.bool true) _ hnd2
  · exact List.Sublist.trans (List.Sublist.trans hsub3 hsub2) hsub1

/-- Witness for C7: the extra key temperature survives verbatim into
the engine call while the consumed do_sample key does not. -/
theorem c7_extra_params_witness :
    lookupKey "temperature"
      (mkEngineCall
        ⟨JVal.str "Hi", JVal.bool false, JVal.int 3, JVal.bool false, JVal.bool false,
         [("temperature", JVal.int 1)]⟩ "req-7").sampling.extra = some (JVal.int 1) ∧
    lookupKey "do_sample"
      (mkEngineCall
        ⟨JVal.str "Hi", JVal.bool false, JVal.int 3, JVal.bool false, JVal.bool false,
         [("temperature", JVal.int 1)]⟩ "req-7").sampling.extra = none := by
  have h := c7_extra_params_forwarded
    [("inputs", JVal.str "Hi"),
     ("parameters", JVal.obj
       [("max_new_tokens", JVal.int 3), ("do_sample", JVal.bool false),
        ("temperature", JVal.int 1)])]
    [("parameters", JVal.obj
       [("max_new_tokens", JVal.int 3), ("do_sample", JVal.bool false),
        ("temperature", JVal.int 1)])]
    []
    [("max_new_tokens", JVal.int 3), ("do_sample", JVal.bool false),
     ("temperature", JVal.int 1)]
    [("do_sample", JVal.bool false), ("temperature", JVal.int 1)]
    (JVal.str "Hi") (JVal.int 3)
    ⟨JVal.str "Hi", JVal.bool false, JVal.int 3, JVal.bool false, JVal.bool false,
     [("temperature", JVal.int 1)]⟩
    "req-7" rfl rfl rfl rfl (by decide)
  exact ⟨(h.1 "temperature" (by decide) (by decide) (by decide)).trans rfl, h.2.2.2.1⟩

/-- C8: in non-streaming mode, when the engine sequence is exhausted
after zero results and no disconnect was ever observed, the Python
function falls off the end: no success payload and no error payload,
the function returns None. -/
theorem c8_zero_results_no_body (disc : Nat → Bool) (req_id : String)
    (body : List (String × JVal)) (p : ParsedReq)
    (hp : parseBody body = Except.ok p)
    (hs : truthy p.streamVal = false) :
    (generate [] disc req_id body).result = some HResult.noReturn ∧
    (generate [] disc req_id body).trace = [] := by
  rw [generate_ok_nonstream [] disc req_id body p hp hs]
  exact ⟨rfl, rfl⟩

/-- Witness for C8: the empty engine sequence on scenario 1's request. -/
theorem c8_zero_results_no_body_witness :
    (generate [] (fun _ => false) "req-8"
        [("inputs", JVal.str "Hello"),
         ("parameters", JVal.obj [("max_new_tokens", JVal.int 5)])]).result =
      some HResult.noReturn := by
  exact (c8_zero_results_no_body (fun _ => false) "req-8"
    [("inputs", JVal.str "Hello"),
     ("parameters", JVal.obj [("max_new_tokens", JVal.int 5)])]
    ⟨JVal.str "Hello", JVal.bool false, JVal.int 5, JVal.bool false, JVal.bool true, []⟩
    rfl rfl).1

/-- C9: in streaming mode the handler never consults the disconnect
monitor and never calls abort; its trace holds only pull events, and
the whole outcome is independent of the disconnect observations. -/
theorem c9_streaming_never_polls
    (engine : List IncrementalResult) (disc disc2 : Nat → Bool) (req_id : String)
    (body : List (String × JVal)) (p : ParsedReq)
    (hp : parseBody body = Except.ok p)
    (hs : truthy p.streamVal = true) :
    noMonitorEvents (generate engine disc req_id body).trace = true ∧
    abortEvents (generate engine disc req_id body).trace = [] ∧
    generate engine disc req_id body = generate engine disc2 req_id body := by
  rw [generate_ok_stream engine disc req_id body p hp hs,
    generate_ok_stream engine disc2 req_id body p hp hs]
  exact ⟨noMonitorEvents_map_pull engine, abortEvents_map_pull engine, rfl⟩

/-- Witness for C9: a streaming request with the client disconnected
from the start still streams both chunks, with no check, no abort. -/
theorem c9_streaming_never_polls_witness :
    noMonitorEvents
      (generate [⟨"Hi", [⟨"a"⟩]⟩, ⟨"Hi", [⟨"ab"⟩]⟩] (fun _ => true) "req-9"
        [("inputs", JVal.str "Hi"),
         ("parameters", JVal.obj [("max_new_tokens", JVal.int 5)]),
         ("stream", JVal.bool true)]).trace = true ∧
    abortEvents
      (generate [⟨"Hi", [⟨"a"⟩]⟩, ⟨"Hi", [⟨"ab"⟩]⟩] (fun _ => true) "req-9"
        [("inputs", JVal.str "Hi"),
         ("parameters", JVal.obj [("max_new_tokens", JVal.int 5)]),
         ("stream", JVal.bool true)]).trace = [] := by
  have h := c9_streaming_never_polls [⟨"Hi", [⟨"a"⟩]⟩, ⟨"Hi", [⟨"ab"⟩]⟩]
    (fun _ => true) (fun _ => false) "req-9"
    [("inputs", JVal.str "Hi"),
     ("parameters", JVal.obj [("max_new_tokens", JVal.int 5)]),
     ("stream", JVal.bool true)]
    ⟨JVal.str "Hi", JVal.bool true, JVal.int 5, JVal.bool false, JVal.bool true, []⟩
    rfl rfl
  exact ⟨h.1, h.2.1⟩

/-- C10: for a fixed request body, engine sequence and disconnect
observations, the response (status and body) does not depend on the
randomly drawn request id: two runs differing only in the id produce
identical results, the id reaching only the engine call and the abort
events of the trace. -/
theorem c10_response_independent_of_request_id
    (engine : List IncrementalResult) (disc : Nat → Bool)
    (body : List (String × JVal)) (id1 id2 : String) :
    (generate engine disc id1 body).result = (generate engine disc id2 body).result := by
  cases hp : parseBody body with
  | error e => simp [generate, hp]
  | ok p =>
    by_cases hs : truthy p.streamVal = true
    · rw [generate_ok_stream engine disc id1 body p hp hs,
        generate_ok_stream engine disc id2 body p hp hs]
      rfl
    · have hs2 : truthy p.streamVal = false := by
        simpa using hs
      rw [generate_ok_nonstream engine disc id1 body p hp hs2,
        generate_ok_nonstream engine disc id2 body p hp hs2]
      show some (nonStreamLoop id1 (truthy p.ret_ft) disc engine 0 none).2 =
        some (nonStreamLoop id2 (truthy p.ret_ft) disc engine 0 none).2
      exact congrArg some
        (nonStreamLoop_result_id id1 id2 (truthy p.ret_ft) disc engine 0 none)

end Server
